import Mathlib

/-!
Verification of the Fusion agent-routing core against its source.

The development shallowly embeds the relevant parts of the repository:
`core/dispatcher.py`, `core/agent_loader.py`, `core/orchestrator.py`,
`fusion_api.py` and `prompt_orchestrator.py`.  Python dictionaries are
modelled as association lists with Python `dict` lookup/update semantics,
Python floats as rationals, exceptions as an explicit error type carried
in `Except`, and network calls as an explicit outcome parameter.
-/

namespace Fusion

/-- A Python value as far as the dispatch layer inspects it: a string, a
number, or a dict.  (`core/dispatcher.py` only distinguishes `dict` from
everything else and otherwise applies `str`.) -/
inductive PyVal where
  | str (s : String)
  | rat (q : Rat)
  | dict (entries : List (String × PyVal))

/-- A Python exception as the dispatch/loader layer distinguishes them.
`handlerExecutionError` is the wrapper exception named by the spec's §4.2
failure-semantics contract; the source has no such class and never
constructs it — the constructor exists so that the spec's claimed
behaviour is expressible in statements. -/
inductive PyErr where
  | valueError (msg : String)
  | typeError (msg : String)
  | importError (msg : String)
  | attrError (msg : String)
  | jsonDecodeError (msg : String)
  | keyError (msg : String)
  | generic (msg : String)
  | handlerExecutionError (inner : PyErr)

/-- `str(e)` on an exception: its message. -/
def errStr : PyErr → String
  | .valueError m => m
  | .typeError m => m
  | .importError m => m
  | .attrError m => m
  | .jsonDecodeError m => m
  | .keyError m => m
  | .generic m => m
  | .handlerExecutionError e => errStr e

/-- Python `dict` lookup on an association list (`d[k]` / `k in d` view):
the first binding of the key. -/
def dlookup {α : Type} : List (String × α) → String → Option α
  | [], _ => none
  | (k0, v) :: rest, k => if k0 == k then some v else dlookup rest k

/-- Python `d.get(k, default)`: the binding if the key is present, else the
default (the bound value is returned even when it is itself a dict). -/
def dictGet (es : List (String × PyVal)) (k : String) (dflt : PyVal) : PyVal :=
  match dlookup es k with
  | some v => v
  | none => dflt

mutual

/-- Python `repr` of a value, used by `str` on dicts
(`str({'a': 'b'}) = "{'a': 'b'}"`). -/
def pyRepr : PyVal → String
  | .str s => "\x27" ++ s ++ "\x27"
  | .rat q => toString q
  | .dict es => "\x7b" ++ pyReprEntries es ++ "\x7d"

/-- Comma-separated `repr` rendering of a dict's entries. -/
def pyReprEntries : List (String × PyVal) → String
  | [] => ""
  | [(k, v)] => "\x27" ++ k ++ "\x27: " ++ pyRepr v
  | (k, v) :: rest => "\x27" ++ k ++ "\x27: " ++ pyRepr v ++ ", " ++ pyReprEntries rest

end

/-- Python `str()` of a value: a string is returned as itself, anything
else is rendered. -/
def pyStrVal : PyVal → String
  | .str s => s
  | .rat q => toString q
  | .dict es => pyRepr (.dict es)

/-- Python `repr` of a list of strings, e.g. `['a', 'b']` — the rendering
used when an f-string interpolates `list(...)`. -/
def pyReprStrList (l : List String) : String :=
  "[" ++ String.intercalate ", " (l.map (fun s => "\x27" ++ s ++ "\x27")) ++ "]"

/-- Recognizer for a string value. -/
def isStrVal : PyVal → Bool
  | .str _ => true
  | _ => false

/-!  ## The Dispatch Adapter (`core/dispatcher.py`)  -/

/-- An agent handle as `Dispatcher.dispatch` probes it: it may expose a
two-argument `run_async` method, a two-argument `run` method, and it can
always be applied directly (a non-callable object's application raises,
which the model folds into the `call` function's own error). -/
structure Agent where
  runAsync : Option (String → List (String × PyVal) → Except PyErr PyVal)
  run : Option (String → List (String × PyVal) → Except PyErr PyVal)
  call : String → Except PyErr PyVal

/-- Which capability branch `dispatch` took. -/
inductive Capability where
  | runAsync
  | runSync
  | call
deriving DecidableEq, Repr

/-- The observable outcome of one `dispatch` call: the returned value or
raised exception, the capability invocations performed (with their input),
and the log lines emitted. -/
structure DispatchOut where
  result : Except PyErr PyVal
  calls : List (Capability × String)
  logs : List String

/-- Registry lookup `self.agents[agent_name]` (with the `in` membership
test of `dispatch`). -/
def lookupAgent (agents : List (String × Agent)) (name : String) : Option Agent :=
  dlookup agents name

/-- The `ValueError` message of `dispatch` for an unregistered name:
`f"Agent '{agent_name}' not found. Available: {list(self.agents.keys())}"`. -/
def unknownAgentMsg (name : String) (agents : List (String × Agent)) : String :=
  "Agent \x27" ++ name ++ "\x27 not found. Available: "
    ++ pyReprStrList (agents.map (fun p => p.1))

/-- The normalization expression of the `run_async`/`run` branches of
`dispatch`:
`result.get('output', result.get('enhanced_output', str(result)))` when the
result is a dict, else `str(result)`. -/
def normalizeRun (result : PyVal) : PyVal :=
  match result with
  | .dict es => dictGet es "output" (dictGet es "enhanced_output" (.str (pyStrVal (.dict es))))
  | r => .str (pyStrVal r)

/-- `Dispatcher.dispatch` (`core/dispatcher.py`, lines 21–61): unknown
names raise `ValueError` before anything runs; otherwise the first
capability present among `run_async`, `run`, direct call is invoked; dict
results of the method branches are normalized, direct-call results are
passed through `str`; an exception from the invocation is logged as
`f"Error dispatching to {agent_name}: {e}"` and re-raised. -/
def dispatchAgents (agents : List (String × Agent)) (agent_name : String)
    (input_text : String) (context : List (String × PyVal)) : DispatchOut :=
  match lookupAgent agents agent_name with
  | none =>
    { result := .error (.valueError (unknownAgentMsg agent_name agents)),
      calls := [], logs := [] }
  | some agent =>
    let step : Capability × Except PyErr PyVal :=
      match agent.runAsync with
      | some f => (.runAsync, (f input_text context).map normalizeRun)
      | none =>
        match agent.run with
        | some f => (.runSync, (f input_text context).map normalizeRun)
        | none => (.call, (agent.call input_text).map (fun r => .str (pyStrVal r)))
    match step.2 with
    | .ok v => { result := .ok v, calls := [(step.1, input_text)], logs := [] }
    | .error e =>
      { result := .error e, calls := [(step.1, input_text)],
        logs := ["Error dispatching to " ++ agent_name ++ ": " ++ errStr e] }

/-- Whether a dispatch outcome is a raised `HandlerExecutionError` wrapper. -/
def isHandlerWrap : Except PyErr PyVal → Bool
  | .error (.handlerExecutionError _) => true
  | _ => false

/-!  ## The transport-facing router helpers (`fusion_api.py`)  -/

/-- The outcome of one `httpx` POST: a response with a status code and a
JSON body, or a raised exception (timeout, connection failure, ...). -/
inductive HttpOutcome where
  | response (status : Nat) (body : List (String × PyVal))
  | failure (e : PyErr)

/-- `call_prompt_orchestrator` (`fusion_api.py`, lines 96–118): POST to
`/rewrite`; a 200 response's JSON is returned as-is; any other status and
any raised exception produce the fixed fallback dict
`{"original_prompt": prompt, "rewritten_prompt": prompt, "confidence": 0.5}`.
The function is total: no outcome makes it raise. -/
def call_prompt_orchestrator (prompt : String) (outcome : HttpOutcome) :
    List (String × PyVal) :=
  match outcome with
  | .response status body =>
    if status = 200 then body
    else [("original_prompt", .str prompt), ("rewritten_prompt", .str prompt),
          ("confidence", .rat (1/2))]
  | .failure _ =>
    [("original_prompt", .str prompt), ("rewritten_prompt", .str prompt),
     ("confidence", .rat (1/2))]

/-- `get_agent_recommendation` (`fusion_api.py`, lines 120–139): POST to
`/route`; a 200 response's JSON is returned as-is; any other status and any
raised exception produce `{"recommended_agent": "evaluator", "confidence": 0.5}`.
Total: no outcome makes it raise. -/
def get_agent_recommendation (_prompt : String) (outcome : HttpOutcome) :
    List (String × PyVal) :=
  match outcome with
  | .response status body =>
    if status = 200 then body
    else [("recommended_agent", .str "evaluator"), ("confidence", .rat (1/2))]
  | .failure _ =>
    [("recommended_agent", .str "evaluator"), ("confidence", .rat (1/2))]

/-- An HTTP error response raised by an endpoint (`HTTPException`). -/
structure HTTPException where
  status_code : Nat
  detail : String

/-- The observable outcome of `run_parallel_agents`: the HTTP-level result
and whether `orchestrator.run_parallel` was ever invoked. -/
structure ParallelOut where
  result : Except HTTPException PyVal
  orchestratorCalled : Bool

/-- `run_parallel_agents` (`fusion_api.py`, lines 311–337): the requested
names are validated against `agent_map` first; when some are unknown the
endpoint raises 404 `f"Agents not found: {invalid_agents}"` and the
orchestrator is never called; otherwise the (external)
`orchestrator.run_parallel` runs on the input and requested agents. -/
def run_parallel_agents (agent_map : List String) (req_agents : List String)
    (input : String) (orchRun : String → List String → PyVal) : ParallelOut :=
  let invalid_agents := req_agents.filter (fun a => !(agent_map.contains a))
  if invalid_agents.isEmpty then
    { result := .ok (orchRun input req_agents), orchestratorCalled := true }
  else
    { result := .error ⟨404, "Agents not found: " ++ pyReprStrList invalid_agents⟩,
      orchestratorCalled := false }

/-- Python truthiness of an `Optional[str]`: `None` and `""` are falsy. -/
def pyTruthyOpt : Option String → Bool
  | none => false
  | some s => !(s == "")

/-- The agent-selection logic of `handle_prompt` (`fusion_api.py`, lines
262–295): `final_agent = req.agent_preference or "evaluator"`, then — only
when the orchestrator is enabled, the preference is falsy, and the
recommended agent is registered — `final_agent = recommended_agent`.
`recommended` is the agent name obtained from `get_agent_recommendation`
(which always yields one), `agent_map` the registered names. -/
def handle_prompt_final_agent (agent_preference : Option String)
    (use_prompt_orchestrator : Bool) (recommended : String)
    (agent_map : List String) : String :=
  let final0 := match agent_preference with
    | some s => if s == "" then "evaluator" else s
    | none => "evaluator"
  if use_prompt_orchestrator && !(pyTruthyOpt agent_preference)
      && agent_map.contains recommended then
    recommended
  else
    final0

/-!  ## The Rewrite/Route Service's `/route` endpoint
(`prompt_orchestrator.py`)  -/

/-- The pattern-type default table of `route_agent`
(`prompt_orchestrator.py`, lines 148–154). -/
def pattern_defaults : List (String × String) :=
  [("design_focused", "vp_design"),
   ("strategy_focused", "strategy_pilot"),
   ("technical_focused", "design_technologist"),
   ("content_focused", "content_designer"),
   ("general", "evaluator")]

/-- The recommendation core of the `/route` endpoint
(`prompt_orchestrator.py`, lines 143–156): when the analysis produced a
non-empty `suggested_agents` list and `confidence >= req.confidence_threshold`
(default 0.7), the primary is `suggested_agents[0]` and the alternatives
are `suggested_agents[1:3]`; otherwise
`pattern_defaults.get(pattern_type, "evaluator")` with the fixed
alternative pair. -/
def route_agent (suggested_agents : List String) (confidence : Rat)
    (pattern_type : String) (confidence_threshold : Rat) : String × List String :=
  if suggested_agents.isEmpty = false ∧ confidence_threshold ≤ confidence then
    (suggested_agents.headD "", (suggested_agents.drop 1).take 2)
  else
    ((dlookup pattern_defaults pattern_type).getD "evaluator",
     ["vp_design", "creative_director"])

/-- The default `confidence_threshold` of `AgentRouteRequest`
(`prompt_orchestrator.py`, line 53). -/
def default_confidence_threshold : Rat := 7/10

/-- The agent-selection policy in the words of the spec (§4.3): if the
decision carries suggested agents and the confidence meets the
caller-supplied threshold (equality counts as meeting it), pick the first
suggested agent as primary and the next two entries as alternatives;
otherwise use the pattern-type default table with the fixed alternative
pair. -/
def route_spec (suggested_agents : List String) (confidence : Rat)
    (pattern_type : String) (confidence_threshold : Rat) : String × List String :=
  match suggested_agents with
  | first :: rest =>
    if confidence ≥ confidence_threshold then
      (first, rest.take 2)
    else
      ((dlookup pattern_defaults pattern_type).getD "evaluator",
       ["vp_design", "creative_director"])
  | [] =>
    ((dlookup pattern_defaults pattern_type).getD "evaluator",
     ["vp_design", "creative_director"])

/-!  ## The local heuristic router (`core/orchestrator.py`)  -/

/-- Python `str.lower()` (the inputs of interest are ASCII). -/
def toLowerStr (s : String) : String :=
  ⟨s.data.map Char.toLower⟩

/-- Python substring membership `needle in hay`. -/
def strContainsSub : List Char → List Char → Bool
  | hay, needle =>
    match hay with
    | [] => needle.isPrefixOf []
    | _ :: rest => needle.isPrefixOf hay || strContainsSub rest needle

/-- Python `any(word in prompt_lower for word in words)`. -/
def anyWordIn (words : List String) (hay : String) : Bool :=
  words.any (fun w => strContainsSub hay.data w.data)

/-- `Orchestrator.select_agent` (`core/orchestrator.py`, lines 61–85):
lower-case the prompt, then test the five keyword groups in order; the
first group with a member occurring in the prompt decides the agent, and
no match falls back to `"evaluator"`. -/
def select_agent (prompt : String) : String :=
  let prompt_lower := toLowerStr prompt
  if anyWordIn ["design", "ui", "ux", "interface", "visual"] prompt_lower then
    "vp_design"
  else if anyWordIn ["strategy", "roadmap", "business", "plan"] prompt_lower then
    "strategy_pilot"
  else if anyWordIn ["code", "technical", "implement", "development"] prompt_lower then
    "design_technologist"
  else if anyWordIn ["content", "copy", "text", "narrative"] prompt_lower then
    "content_designer"
  else if anyWordIn ["evaluate", "analyze", "review", "critique"] prompt_lower then
    "evaluator"
  else
    "evaluator"

/-- The heuristic's category table in the spec's priority order (§4.3):
design/UI, strategy/planning, technical/implementation, content/writing,
evaluation/review, each mapping to exactly one default agent. -/
def routing_table : List (List String × String) :=
  [(["design", "ui", "ux", "interface", "visual"], "vp_design"),
   (["strategy", "roadmap", "business", "plan"], "strategy_pilot"),
   (["code", "technical", "implement", "development"], "design_technologist"),
   (["content", "copy", "text", "narrative"], "content_designer"),
   (["evaluate", "analyze", "review", "critique"], "evaluator")]

/-- First-matching-category selection over a priority table; an input
matching no category gets the fixed default agent. -/
def select_spec_go : List (List String × String) → String → String
  | [], _ => "evaluator"
  | (ws, agentName) :: rest, p =>
    if anyWordIn ws p then agentName else select_spec_go rest p

/-- The local heuristic in the words of the spec (§4.3): classify the
lower-cased input by testing marker words against the categories in fixed
priority order; first match wins; no match falls back to the default. -/
def select_spec (prompt : String) : String :=
  select_spec_go routing_table (toLowerStr prompt)

/-!  ## The Registry (`core/agent_loader.py`)  -/

/-- What resolving one manifest entry by the naming convention yields:
a handler instance, an `ImportError`, an `AttributeError` (the two kinds
the per-entry `except` clause catches), or some other exception (which
that clause does not catch). -/
inductive LoadOutcome where
  | ok (agent : Agent)
  | importErr (msg : String)
  | attrErr (msg : String)
  | otherError (e : PyErr)

/-- The state of the manifest file as `open`/`json.load`/`data["agents"]`
observe it: absent (`FileNotFoundError`), present but not valid JSON
(`json.JSONDecodeError`), or parsed — with or without an `"agents"` key. -/
inductive ManifestSource where
  | missing
  | malformed (msg : String)
  | parsed (agents : Option (List String))

/-- The per-entry loop of `load_agents` (`core/agent_loader.py`, lines
156–165): each name is resolved; success appends the instance and logs a
success line; `ImportError`/`AttributeError` log a failure line and
`continue`; any other exception propagates (losing the result). Returns
the log lines alongside the outcome. -/
def loadEntries (names : List String) (resolve : String → LoadOutcome) :
    List String × Except PyErr (List (String × Agent)) :=
  match names with
  | [] => ([], .ok [])
  | name :: rest =>
    match resolve name with
    | .ok a =>
      (("✅ Loaded agent: " ++ name) :: (loadEntries rest resolve).1,
       ((loadEntries rest resolve).2).map (fun as_ => (name, a) :: as_))
    | .importErr m =>
      (("⚠️ Failed to load agent " ++ name ++ ": " ++ m)
          :: (loadEntries rest resolve).1,
       (loadEntries rest resolve).2)
    | .attrErr m =>
      (("⚠️ Failed to load agent " ++ name ++ ": " ++ m)
          :: (loadEntries rest resolve).1,
       (loadEntries rest resolve).2)
    | .otherError e => ([], .error e)

/-- `load_agents` (`core/agent_loader.py`, lines 141–170): a missing
manifest is caught (`except FileNotFoundError`), logged, and yields no
agents; a manifest that fails JSON parsing raises `json.JSONDecodeError`
(not caught); a parsed manifest without an `"agents"` key raises
`KeyError` (not caught); otherwise the entries are loaded one by one. -/
def load_agents (manifest_path : String) (source : ManifestSource)
    (resolve : String → LoadOutcome) :
    List String × Except PyErr (List (String × Agent)) :=
  match source with
  | .missing =>
    (["⚠️ Warning: Manifest file " ++ manifest_path ++ " not found"], .ok [])
  | .malformed m => ([], .error (.jsonDecodeError m))
  | .parsed none => ([], .error (.keyError "\x27agents\x27"))
  | .parsed (some names) => loadEntries names resolve

/-- Python `d[k] = v` on an association-list dict: replace the binding in
place when the key is present, else append it. -/
def dictInsert {α : Type} (m : List (String × α)) (k : String) (v : α) :
    List (String × α) :=
  match m with
  | [] => [(k, v)]
  | (k0, v0) :: rest =>
    if k0 == k then (k0, v) :: rest else (k0, v0) :: dictInsert rest k v

/-- Python `base.update(upd)`: set every binding of `upd`, in order, into
`base`. -/
def dictUpdate {α : Type} (base upd : List (String × α)) : List (String × α) :=
  upd.foldl (fun m p => dictInsert m p.1 p.2) base

/-- The per-entry loop of `load_plugins` (`core/agent_loader.py`, lines
195–202): each discovered plugin name is instantiated into the
`plugin_agents` dict; any exception is caught, logged, and skips the
entry. -/
def pluginEntries (discovered : List (String × Except PyErr Agent)) :
    List (String × Agent) :=
  discovered.foldl
    (fun m p =>
      match p.2 with
      | .ok a => dictInsert m p.1 a
      | .error _ => m)
    []

/-- `load_plugins` (`core/agent_loader.py`, lines 172–207): an absent
plugins directory is created and yields no agents; otherwise the
discovered plugins are instantiated entry by entry. Never raises. -/
def load_plugins (plugins_dir_exists : Bool)
    (discovered : List (String × Except PyErr Agent)) : List (String × Agent) :=
  if !plugins_dir_exists then [] else pluginEntries discovered

/-- `load_all_agents` (`core/agent_loader.py`, lines 209–229): load the
core agents, load the plugins, then `agents.update(plugin_agents)` — the
merged dict is returned, with plugin bindings overwriting same-named core
bindings and no conflict check. -/
def load_all_agents (manifest_path : String) (source : ManifestSource)
    (resolve : String → LoadOutcome) (plugins_dir_exists : Bool)
    (discovered : List (String × Except PyErr Agent)) :
    List String × Except PyErr (List (String × Agent)) :=
  match (load_agents manifest_path source resolve).2 with
  | .error e => ((load_agents manifest_path source resolve).1, .error e)
  | .ok agents =>
    ((load_agents manifest_path source resolve).1,
     .ok (dictUpdate agents (load_plugins plugins_dir_exists discovered)))

/-- Whether a resolution outcome escapes the per-entry `except` clause. -/
def isFatalOutcome : LoadOutcome → Bool
  | .otherError _ => true
  | _ => false

/-- Whether a resolution outcome is one of the caught, logged failures. -/
def isResolutionFailure : LoadOutcome → Bool
  | .importErr _ => true
  | .attrErr _ => true
  | _ => false

/-- Whether a log line reports a per-entry load failure. -/
def isFailLog (l : String) : Bool :=
  "⚠️ Failed to load agent".data.isPrefixOf l.data

/-- The key list of an association-list dict. -/
def dkeys {α : Type} (m : List (String × α)) : List String :=
  m.map (fun p => p.1)

/-!  ### Concrete handles used to instantiate the theorems  -/

/-- A plain callable handler (no `run_async`/`run`): echoes its input. -/
def echoAgent : Agent :=
  { runAsync := none, run := none, call := fun s => .ok (.str s) }

/-- A handler whose `run_async` raises while its `run` and direct call
would succeed — it distinguishes "first capability used exclusively" from
a fallback chain. -/
def boomAgent : Agent :=
  { runAsync := some (fun _ _ => .error (.generic "boom")),
    run := some (fun _ _ => .ok (.str "never")),
    call := fun _ => .ok (.str "never") }

/-- A handler whose `run_async` succeeds with a structured result. -/
def asyncOkAgent : Agent :=
  { runAsync := some (fun s _ => .ok (.dict [("output", .str ("async " ++ s))])),
    run := some (fun _ _ => .ok (.str "sync")),
    call := fun _ => .ok (.str "direct") }

/-- A plugin-provided handler distinguishable from `echoAgent`. -/
def pluginEchoAgent : Agent :=
  { runAsync := none, run := none, call := fun s => .ok (.str ("plugin " ++ s)) }

/-- A concrete resolution environment: `evaluator` resolves, every other
name fails its import. -/
def demoResolve : String → LoadOutcome := fun n =>
  if n == "evaluator" then .ok echoAgent
  else .importErr ("No module named \x27agents." ++ n ++ "_agent\x27")

/-!  ## Association-list dict lemmas  -/

theorem dlookup_dictInsert {α : Type} (m : List (String × α)) (k0 : String)
    (v0 : α) (k : String) :
    dlookup (dictInsert m k0 v0) k = if k0 == k then some v0 else dlookup m k := by
  induction m with
  | nil => rfl
  | cons p rest ih =>
    obtain ⟨k1, v1⟩ := p
    by_cases h : k1 = k0
    · subst h
      simp only [dictInsert, beq_self_eq_true, if_true]
      by_cases hk : k1 = k
      · subst hk; simp [dlookup]
      · simp [dlookup, hk]
    · simp only [dictInsert, beq_iff_eq, if_neg h]
      by_cases hk : k1 = k
      · subst hk
        have hne : k0 ≠ k1 := fun hkk => h hkk.symm
        simp [dlookup, hne]
      · simp [dlookup, hk, ih]

theorem dlookup_append {α : Type} (l1 l2 : List (String × α)) (k : String) :
    dlookup (l1 ++ l2) k =
      match dlookup l1 k with
      | some v => some v
      | none => dlookup l2 k := by
  induction l1 with
  | nil => rfl
  | cons p rest ih =>
    obtain ⟨k0, v0⟩ := p
    by_cases h : k0 = k
    · subst h; simp [dlookup]
    · simp [dlookup, h, ih]

theorem dlookup_eq_none_of_not_mem_dkeys {α : Type} (m : List (String × α))
    (k : String) (h : k ∉ dkeys m) : dlookup m k = none := by
  induction m with
  | nil => rfl
  | cons p rest ih =>
    obtain ⟨k0, v0⟩ := p
    simp only [dkeys, List.map_cons, List.mem_cons] at h
    push_neg at h
    have hk0 : (k0 == k) = false := by simp [beq_iff_eq]; exact fun hkk => h.1 hkk.symm
    simp only [dlookup, hk0, if_false, Bool.false_eq_true]
    exact ih (by simpa [dkeys] using h.2)

theorem dlookup_reverse_of_nodup {α : Type} (m : List (String × α))
    (hnd : (dkeys m).Nodup) (k : String) :
    dlookup m.reverse k = dlookup m k := by
  induction m with
  | nil => rfl
  | cons p rest ih =>
    obtain ⟨k0, v0⟩ := p
    simp only [dkeys, List.map_cons, List.nodup_cons] at hnd
    rw [List.reverse_cons, dlookup_append]
    by_cases h : k0 = k
    · subst h
      have hnone : dlookup rest.reverse k0 = none := by
        apply dlookup_eq_none_of_not_mem_dkeys
        simp only [dkeys, List.map_reverse, List.mem_reverse]
        exact hnd.1
      rw [hnone]
      simp [dlookup]
    · have hk0 : (k0 == k) = false := by simp [beq_iff_eq, h]
      rw [ih (by simpa [dkeys] using hnd.2)]
      simp only [dlookup, hk0, if_false, Bool.false_eq_true]
      cases hrest : dlookup rest k <;> simp

theorem mem_dkeys_dictInsert {α : Type} (m : List (String × α)) (k : String)
    (v : α) (x : String) :
    x ∈ dkeys (dictInsert m k v) ↔ x ∈ dkeys m ∨ x = k := by
  induction m with
  | nil => simp [dictInsert, dkeys]
  | cons p rest ih =>
    obtain ⟨k0, v0⟩ := p
    by_cases h : k0 = k
    · subst h
      simp only [dictInsert, beq_self_eq_true, if_true]
      simp only [dkeys, List.map_cons, List.mem_cons]
      constructor
      · intro hx; rcases hx with hx | hx
        · exact Or.inl (Or.inl hx)
        · exact Or.inl (Or.inr hx)
      · intro hx; rcases hx with (hx | hx) | hx
        · exact Or.inl hx
        · exact Or.inr hx
        · exact Or.inl hx
    · have hk0 : (k0 == k) = false := by simp [beq_iff_eq, h]
      simp only [dictInsert, hk0, if_false, Bool.false_eq_true]
      simp only [dkeys, List.map_cons, List.mem_cons] at ih ⊢
      rw [ih]
      tauto

theorem nodup_dkeys_dictInsert {α : Type} (m : List (String × α)) (k : String)
    (v : α) (hnd : (dkeys m).Nodup) : (dkeys (dictInsert m k v)).Nodup := by
  induction m with
  | nil => simp [dictInsert, dkeys]
  | cons p rest ih =>
    obtain ⟨k0, v0⟩ := p
    simp only [dkeys, List.map_cons, List.nodup_cons] at hnd
    by_cases h : k0 = k
    · subst h
      simp only [dictInsert, beq_self_eq_true, if_true]
      simp only [dkeys, List.map_cons, List.nodup_cons]
      exact ⟨hnd.1, hnd.2⟩
    · have hk0 : (k0 == k) = false := by simp [beq_iff_eq, h]
      simp only [dictInsert, hk0, if_false, Bool.false_eq_true]
      simp only [dkeys, List.map_cons, List.nodup_cons]
      refine ⟨?_, ih hnd.2⟩
      intro hmem
      rcases (mem_dkeys_dictInsert rest k v k0).mp hmem with hx | hx
      · exact hnd.1 hx
      · exact h hx

theorem nodup_dkeys_pluginEntries_aux (discovered : List (String × Except PyErr Agent))
    (acc : List (String × Agent)) (hnd : (dkeys acc).Nodup) :
    (dkeys (discovered.foldl
      (fun m p =>
        match p.2 with
        | .ok a => dictInsert m p.1 a
        | .error _ => m)
      acc)).Nodup := by
  induction discovered generalizing acc with
  | nil => exact hnd
  | cons q rest ih =>
    obtain ⟨name, r⟩ := q
    cases r with
    | ok a => exact ih (dictInsert acc name a) (nodup_dkeys_dictInsert acc name a hnd)
    | error e => exact ih acc hnd

theorem nodup_dkeys_pluginEntries (discovered : List (String × Except PyErr Agent)) :
    (dkeys (pluginEntries discovered)).Nodup :=
  nodup_dkeys_pluginEntries_aux discovered [] (by simp [dkeys])

theorem dlookup_dictUpdate {α : Type} (upd base : List (String × α)) (k : String) :
    dlookup (dictUpdate base upd) k =
      match dlookup upd.reverse k with
      | some v => some v
      | none => dlookup base k := by
  induction upd generalizing base with
  | nil => rfl
  | cons p rest ih =>
    obtain ⟨k0, v0⟩ := p
    have hstep : dictUpdate base ((k0, v0) :: rest)
        = dictUpdate (dictInsert base k0 v0) rest := rfl
    rw [hstep, ih, List.reverse_cons, dlookup_append]
    cases hr : dlookup rest.reverse k with
    | some v => simp
    | none =>
      simp only
      rw [dlookup_dictInsert]
      by_cases h : k0 = k
      · subst h; simp [dlookup]
      · have hk0 : (k0 == k) = false := by simp [beq_iff_eq, h]
        simp [dlookup, hk0]

/-!  ## Claim theorems  -/

/-- C1: for every routing request, the `/route` recommendation follows the
spec's agent-selection policy exactly — a non-empty suggestion list whose
confidence meets the caller-supplied threshold (equality counts) yields
the first suggested agent with the next two entries as alternatives, and
anything else falls back to the pattern-type default table with the fixed
alternative pair; the request's default threshold is 0.7, and the
boundary behaves as claimed at and just below the threshold. -/
theorem route_agent_follows_selection_policy :
    (∀ (s : List String) (c : Rat) (p : String) (t : Rat),
        route_agent s c p t = route_spec s c p t)
    ∧ default_confidence_threshold = 7/10
    ∧ route_agent ["a", "b", "c", "d"] (7/10) "general" (7/10) = ("a", ["b", "c"])
    ∧ route_agent ["a", "b", "c", "d"] (69/100) "general" (7/10)
        = ("evaluator", ["vp_design", "creative_director"]) := by
  refine ⟨fun s c p t => ?_, rfl, by norm_num [route_agent],
    by norm_num [route_agent]; rfl⟩
  cases s with
  | nil => simp [route_agent, route_spec]
  | cons a rest =>
    by_cases h : t ≤ c
    · simp [route_agent, route_spec, h, ge_iff_le]
    · simp [route_agent, route_spec, h, ge_iff_le]

/-- C2: whenever the Rewrite/Route Service call raises (timeout, network
failure, ...) or answers with a non-200 status, `call_prompt_orchestrator`
returns the identity rewrite of the input with the fixed confidence 0.5
(and `get_agent_recommendation` likewise falls back to the fixed
`"evaluator"` recommendation with confidence 0.5); both are total
functions of the outcome, so routing never raises to its caller. -/
theorem router_degrades_to_identity_rewrite (prompt : String) (status : Nat)
    (body : List (String × PyVal)) (e : PyErr) (hs : status ≠ 200) :
    dlookup (call_prompt_orchestrator prompt (.response status body))
        "rewritten_prompt" = some (.str prompt)
    ∧ dlookup (call_prompt_orchestrator prompt (.response status body))
        "confidence" = some (.rat (1/2))
    ∧ dlookup (call_prompt_orchestrator prompt (.failure e))
        "rewritten_prompt" = some (.str prompt)
    ∧ dlookup (call_prompt_orchestrator prompt (.failure e))
        "confidence" = some (.rat (1/2))
    ∧ dlookup (get_agent_recommendation prompt (.response status body))
        "recommended_agent" = some (.str "evaluator")
    ∧ dlookup (get_agent_recommendation prompt (.response status body))
        "confidence" = some (.rat (1/2))
    ∧ dlookup (get_agent_recommendation prompt (.failure e))
        "recommended_agent" = some (.str "evaluator")
    ∧ dlookup (get_agent_recommendation prompt (.failure e))
        "confidence" = some (.rat (1/2)) := by
  simp only [call_prompt_orchestrator, get_agent_recommendation, if_neg hs]
  refine ⟨rfl, rfl, rfl, rfl, rfl, rfl, rfl, rfl⟩

/-- Witness for C2 at a concrete failed call: a 500 response and a raised
timeout both degrade the rewrite of `"hello"` to `"hello"` itself. -/
theorem router_degrades_to_identity_rewrite_witness :
    dlookup (call_prompt_orchestrator "hello" (.response 500 []))
        "rewritten_prompt" = some (.str "hello")
    ∧ dlookup (call_prompt_orchestrator "hello" (.failure (.generic "timeout")))
        "confidence" = some (.rat (1/2)) :=
  ⟨(router_degrades_to_identity_rewrite "hello" 500 [] (.generic "timeout")
      (by decide)).1,
   (router_degrades_to_identity_rewrite "hello" 500 [] (.generic "timeout")
      (by decide)).2.2.2.1⟩

/-- C3: an agent name absent from the registry's name→handle map makes
`dispatch` raise the unknown-agent `ValueError` with no capability ever
invoked, and makes `run_parallel` reject the whole request with a 404
before the orchestrator (and hence any handler) runs — fail fast, not
partial. -/
theorem unknown_agent_fails_fast (name : String) :
    (∀ (agents : List (String × Agent)) (input : String)
        (context : List (String × PyVal)),
      lookupAgent agents name = none →
      (dispatchAgents agents name input context).result
          = .error (.valueError (unknownAgentMsg name agents))
      ∧ (dispatchAgents agents name input context).calls = []
      ∧ (dispatchAgents agents name input context).logs = [])
    ∧ (∀ (agent_map req_agents : List String) (input : String)
        (orchRun : String → List String → PyVal),
      name ∈ req_agents → agent_map.contains name = false →
      (run_parallel_agents agent_map req_agents input orchRun).orchestratorCalled
          = false
      ∧ (run_parallel_agents agent_map req_agents input orchRun).result
          = .error ⟨404, "Agents not found: "
              ++ pyReprStrList (req_agents.filter
                    (fun a => !(agent_map.contains a)))⟩) := by
  constructor
  · intro agents input context h
    simp [dispatchAgents, h]
  · intro agent_map req_agents input orchRun hin hc
    have hmem : name ∈ req_agents.filter (fun a => !(agent_map.contains a)) :=
      List.mem_filter.mpr ⟨hin, by simp only [hc, Bool.not_false]⟩
    have hne : (req_agents.filter (fun a => !(agent_map.contains a))).isEmpty
        = false := by
      cases hfil : req_agents.filter (fun a => !(agent_map.contains a)) with
      | nil => rw [hfil] at hmem; exact absurd hmem (List.not_mem_nil name)
      | cons x xs => rfl
    constructor
    · simp only [run_parallel_agents, hne, Bool.false_eq_true, if_false]
    · simp only [run_parallel_agents, hne, Bool.false_eq_true, if_false]

/-- Witness for C3 at a concrete registry: dispatching the unregistered
name `"ghost"` performs no invocation, and a parallel request naming it is
rejected without reaching the orchestrator. -/
theorem unknown_agent_fails_fast_witness :
    (dispatchAgents [("evaluator", echoAgent)] "ghost" "hi" []).calls = []
    ∧ (run_parallel_agents ["evaluator"] ["ghost", "evaluator"] "hi"
        (fun _ _ => .str "out")).orchestratorCalled = false :=
  ⟨((unknown_agent_fails_fast "ghost").1 [("evaluator", echoAgent)] "hi" []
      rfl).2.1,
   ((unknown_agent_fails_fast "ghost").2 ["evaluator"] ["ghost", "evaluator"]
      "hi" (fun _ _ => .str "out") (by decide) (by decide)).1⟩

/-- C4 counterexample: a handler whose dict carries a dict under
`"output"` makes dispatch normalization return that inner dict itself —
not a string — so "normalization yields a string" fails as a universal
statement even though the per-key rules hold. -/
theorem dispatch_normalization_nonstring_counterexample :
    normalizeRun (.dict [("output", .dict [("k", .str "v")])])
        = .dict [("k", .str "v")]
    ∧ isStrVal (normalizeRun (.dict [("output", .dict [("k", .str "v")])]))
        = false :=
  ⟨rfl, rfl⟩

/-- C4 (amended): dispatch normalization of a method-branch result returns
the dict's `"output"` value when that key is present (whatever value it
holds), else the `"enhanced_output"` value, else the `str` rendering of
the whole dict; a bare string passes through unchanged. The result is a
string except when the handler put a non-string under the selected key. -/
theorem dispatch_normalization_rules :
    (∀ (es : List (String × PyVal)) (v : PyVal),
      dlookup es "output" = some v → normalizeRun (.dict es) = v)
    ∧ (∀ (es : List (String × PyVal)) (v : PyVal),
      dlookup es "output" = none → dlookup es "enhanced_output" = some v →
      normalizeRun (.dict es) = v)
    ∧ (∀ es : List (String × PyVal),
      dlookup es "output" = none → dlookup es "enhanced_output" = none →
      normalizeRun (.dict es) = .str (pyStrVal (.dict es)))
    ∧ (∀ s : String, normalizeRun (.str s) = .str s) := by
  refine ⟨?_, ?_, ?_, fun s => rfl⟩
  · intro es v h
    simp [normalizeRun, dictGet, h]
  · intro es v h1 h2
    simp [normalizeRun, dictGet, h1, h2]
  · intro es h1 h2
    simp [normalizeRun, dictGet, h1, h2]

/-- Witness for C4 at the spec's own examples: `{"output": "X"}` yields
`"X"`, `{"enhanced_output": "Y"}` yields `"Y"`, and a bare string is
unchanged. -/
theorem dispatch_normalization_rules_witness :
    normalizeRun (.dict [("output", .str "X")]) = .str "X"
    ∧ normalizeRun (.dict [("enhanced_output", .str "Y")]) = .str "Y"
    ∧ normalizeRun (.str "Z") = .str "Z" :=
  ⟨dispatch_normalization_rules.1 [("output", .str "X")] (.str "X") rfl,
   dispatch_normalization_rules.2.1 [("enhanced_output", .str "Y")] (.str "Y")
     rfl rfl,
   dispatch_normalization_rules.2.2.2 "Z"⟩

/-- C5: `dispatch` resolves the invocation capability in the fixed order
`run_async`, then `run`, then direct call, first match winning; exactly
one capability is invoked, and when it fails its error propagates rather
than the next capability being tried. -/
theorem dispatch_capability_precedence (agents : List (String × Agent))
    (name input : String) (context : List (String × PyVal)) (a : Agent)
    (ha : lookupAgent agents name = some a) :
    (∀ f, a.runAsync = some f →
      (dispatchAgents agents name input context).calls = [(.runAsync, input)]
      ∧ (∀ e, f input context = .error e →
          (dispatchAgents agents name input context).result = .error e)
      ∧ (∀ v, f input context = .ok v →
          (dispatchAgents agents name input context).result
            = .ok (normalizeRun v)))
    ∧ (a.runAsync = none → ∀ g, a.run = some g →
      (dispatchAgents agents name input context).calls = [(.runSync, input)]
      ∧ (∀ e, g input context = .error e →
          (dispatchAgents agents name input context).result = .error e)
      ∧ (∀ v, g input context = .ok v →
          (dispatchAgents agents name input context).result
            = .ok (normalizeRun v)))
    ∧ (a.runAsync = none → a.run = none →
      (dispatchAgents agents name input context).calls = [(.call, input)]
      ∧ (∀ e, a.call input = .error e →
          (dispatchAgents agents name input context).result = .error e)
      ∧ (∀ v, a.call input = .ok v →
          (dispatchAgents agents name input context).result
            = .ok (.str (pyStrVal v)))) := by
  refine ⟨?_, ?_, ?_⟩
  · intro f hf
    refine ⟨?_, ?_, ?_⟩
    · cases hres : f input context with
      | ok v => simp [dispatchAgents, Except.map, ha, hf, hres]
      | error e => simp [dispatchAgents, Except.map, ha, hf, hres]
    · intro e hres; simp [dispatchAgents, Except.map, ha, hf, hres]
    · intro v hres; simp [dispatchAgents, Except.map, ha, hf, hres]
  · intro hna g hg
    refine ⟨?_, ?_, ?_⟩
    · cases hres : g input context with
      | ok v => simp [dispatchAgents, Except.map, ha, hna, hg, hres]
      | error e => simp [dispatchAgents, Except.map, ha, hna, hg, hres]
    · intro e hres; simp [dispatchAgents, Except.map, ha, hna, hg, hres]
    · intro v hres; simp [dispatchAgents, Except.map, ha, hna, hg, hres]
  · intro hna hnr
    refine ⟨?_, ?_, ?_⟩
    · cases hres : a.call input with
      | ok v => simp [dispatchAgents, Except.map, ha, hna, hnr, hres]
      | error e => simp [dispatchAgents, Except.map, ha, hna, hnr, hres]
    · intro e hres; simp [dispatchAgents, Except.map, ha, hna, hnr, hres]
    · intro v hres; simp [dispatchAgents, Except.map, ha, hna, hnr, hres]

/-- Witness for C5 at concrete handles: an agent exposing `run_async`
is invoked through it exactly once (even though its `run` and direct call
exist), and an erroring `run_async` is not retried through `run`. -/
theorem dispatch_capability_precedence_witness :
    (dispatchAgents [("promptmaster", asyncOkAgent)] "promptmaster" "hi" []).calls
        = [(.runAsync, "hi")]
    ∧ (dispatchAgents [("promptmaster", asyncOkAgent)] "promptmaster" "hi"
        []).result = .ok (.str "async hi")
    ∧ (dispatchAgents [("vp_design", boomAgent)] "vp_design" "x" []).calls
        = [(.runAsync, "x")]
    ∧ (dispatchAgents [("vp_design", boomAgent)] "vp_design" "x" []).result
        = .error (.generic "boom") :=
  ⟨((dispatch_capability_precedence [("promptmaster", asyncOkAgent)]
      "promptmaster" "hi" [] asyncOkAgent rfl).1
      (fun s _ => .ok (.dict [("output", .str ("async " ++ s))])) rfl).1,
   (((dispatch_capability_precedence [("promptmaster", asyncOkAgent)]
      "promptmaster" "hi" [] asyncOkAgent rfl).1
      (fun s _ => .ok (.dict [("output", .str ("async " ++ s))])) rfl).2.2
      (.dict [("output", .str "async hi")]) rfl).trans rfl,
   ((dispatch_capability_precedence [("vp_design", boomAgent)] "vp_design"
      "x" [] boomAgent rfl).1 (fun _ _ => .error (.generic "boom")) rfl).1,
   (((dispatch_capability_precedence [("vp_design", boomAgent)] "vp_design"
      "x" [] boomAgent rfl).1 (fun _ _ => .error (.generic "boom")) rfl).2.1
      (.generic "boom") rfl)⟩

/-- C6 counterexample: an exception inside a handler (`boomAgent`, raising
`"boom"` on an input of 34 characters) is re-raised by `dispatch` as the
original exception — not wrapped in any `HandlerExecutionError` — and the
log line carries the agent name and the exception text but no preview of
the input. -/
theorem dispatch_reraise_unwrapped_counterexample :
    (dispatchAgents [("vp_design", boomAgent)] "vp_design"
        "Design a brand new onboarding flow" []).result
      = .error (.generic "boom")
    ∧ isHandlerWrap (dispatchAgents [("vp_design", boomAgent)] "vp_design"
        "Design a brand new onboarding flow" []).result = false
    ∧ (dispatchAgents [("vp_design", boomAgent)] "vp_design"
        "Design a brand new onboarding flow" []).logs
      = ["Error dispatching to vp_design: boom"]
    ∧ strContainsSub "Error dispatching to vp_design: boom".data
        "Design a brand new onboarding flow".data = false :=
  ⟨rfl, rfl, rfl, rfl⟩

/-- C6 (amended): any exception raised inside an agent invocation is
caught at the adapter boundary, logged as
`"Error dispatching to <agent>: <error text>"` (the agent name and the
exception's text, with no input preview), and re-raised unchanged — the
original exception object, not a wrapper — surfacing to the immediate
caller of `dispatch`. -/
theorem dispatch_logs_and_reraises_original (agents : List (String × Agent))
    (name input : String) (context : List (String × PyVal)) (a : Agent)
    (e : PyErr) (ha : lookupAgent agents name = some a) :
    (∀ f, a.runAsync = some f → f input context = .error e →
      (dispatchAgents agents name input context).result = .error e
      ∧ isHandlerWrap (dispatchAgents agents name input context).result
          = isHandlerWrap (Except.error e)
      ∧ (dispatchAgents agents name input context).logs
          = ["Error dispatching to " ++ name ++ ": " ++ errStr e])
    ∧ (a.runAsync = none → ∀ g, a.run = some g → g input context = .error e →
      (dispatchAgents agents name input context).result = .error e
      ∧ (dispatchAgents agents name input context).logs
          = ["Error dispatching to " ++ name ++ ": " ++ errStr e])
    ∧ (a.runAsync = none → a.run = none → a.call input = .error e →
      (dispatchAgents agents name input context).result = .error e
      ∧ (dispatchAgents agents name input context).logs
          = ["Error dispatching to " ++ name ++ ": " ++ errStr e]) := by
  refine ⟨?_, ?_, ?_⟩
  · intro f hf hres
    refine ⟨?_, ?_, ?_⟩
    · simp [dispatchAgents, Except.map, ha, hf, hres]
    · simp [dispatchAgents, Except.map, ha, hf, hres]
    · simp [dispatchAgents, Except.map, ha, hf, hres]
  · intro hna g hg hres
    constructor
    · simp [dispatchAgents, Except.map, ha, hna, hg, hres]
    · simp [dispatchAgents, Except.map, ha, hna, hg, hres]
  · intro hna hnr hres
    constructor
    · simp [dispatchAgents, Except.map, ha, hna, hnr, hres]
    · simp [dispatchAgents, Except.map, ha, hna, hnr, hres]

/-- Witness for C6 (amended) at `boomAgent`: the raised `"boom"` surfaces
unchanged with its log line. -/
theorem dispatch_logs_and_reraises_original_witness :
    (dispatchAgents [("vp_design", boomAgent)] "vp_design" "hello" []).result
        = .error (.generic "boom")
    ∧ (dispatchAgents [("vp_design", boomAgent)] "vp_design" "hello" []).logs
        = ["Error dispatching to vp_design: boom"] :=
  ⟨((dispatch_logs_and_reraises_original [("vp_design", boomAgent)] "vp_design"
      "hello" [] boomAgent (.generic "boom") rfl).1
      (fun _ _ => .error (.generic "boom")) rfl rfl).1,
   (((dispatch_logs_and_reraises_original [("vp_design", boomAgent)] "vp_design"
      "hello" [] boomAgent (.generic "boom") rfl).1
      (fun _ _ => .error (.generic "boom")) rfl rfl).2.2).trans rfl⟩

/-- C8: the local heuristic agrees pointwise with the spec's description —
lower-case the input and test marker words against the topic categories in
the fixed priority order (design/UI, strategy/planning,
technical/implementation, content/writing, evaluation/review), first
matching category deciding the single default agent and no match falling
back to the fixed default — and on the concrete input
`"Design a mobile app for Bitcoin trading"` it selects `vp_design`. -/
theorem select_agent_follows_keyword_priority :
    (∀ p : String, select_agent p = select_spec p)
    ∧ select_agent "Design a mobile app for Bitcoin trading" = "vp_design" :=
  ⟨fun _ => rfl, rfl⟩

/-- The per-entry loop of the registry load, on a manifest whose entries
all either resolve or fail with a caught import/attribute error: the
result is exactly the resolvable entries, and the failure log lines count
the unresolvable ones. -/
theorem loadEntries_spec (names : List String) (resolve : String → LoadOutcome)
    (h : ∀ n ∈ names, isFatalOutcome (resolve n) = false) :
    (loadEntries names resolve).2 = .ok (names.filterMap (fun n =>
        match resolve n with | .ok a => some (n, a) | _ => none))
    ∧ ((loadEntries names resolve).1.filter isFailLog).length
        = names.countP (fun n => isResolutionFailure (resolve n)) := by
  induction names with
  | nil => exact ⟨rfl, rfl⟩
  | cons name rest ih =>
    have hrest := ih (fun n hn => h n (List.mem_cons_of_mem _ hn))
    have hname := h name (List.mem_cons_self _ _)
    cases hres : resolve name with
    | ok a =>
      constructor
      · simp only [loadEntries, hres, hrest.1, Except.map, List.filterMap_cons]
      · have hlog : isFailLog ("✅ Loaded agent: " ++ name) = false := rfl
        simp only [loadEntries, hres, List.filter_cons, hlog,
          Bool.false_eq_true, if_false, hrest.2, List.countP_cons,
          isResolutionFailure, Bool.false_eq_true, if_false, Nat.add_zero]
    | importErr m =>
      constructor
      · simp only [loadEntries, hres, hrest.1, List.filterMap_cons]
      · have hlog : isFailLog ("⚠️ Failed to load agent " ++ name ++ ": " ++ m)
            = true := rfl
        simp only [loadEntries, hres, List.filter_cons, hlog, if_true,
          List.length_cons, hrest.2, List.countP_cons, isResolutionFailure,
          if_true]
    | attrErr m =>
      constructor
      · simp only [loadEntries, hres, hrest.1, List.filterMap_cons]
      · have hlog : isFailLog ("⚠️ Failed to load agent " ++ name ++ ": " ++ m)
            = true := rfl
        simp only [loadEntries, hres, List.filter_cons, hlog, if_true,
          List.length_cons, hrest.2, List.countP_cons, isResolutionFailure,
          if_true]
    | otherError e =>
      rw [hres] at hname
      exact absurd hname (by simp [isFatalOutcome])

/-- C7 counterexample: a manifest file that exists but is not valid JSON
makes the registry load raise the `json.JSONDecodeError` to its caller —
`load_agents` only catches `FileNotFoundError` — rather than degrading to
zero core agents. -/
theorem registry_load_raises_on_malformed_manifest :
    (load_agents "agent_manifest.json"
        (.malformed "Expecting value: line 1 column 1 (char 0)")
        (fun _ => .ok echoAgent)).2
      = .error (.jsonDecodeError "Expecting value: line 1 column 1 (char 0)") :=
  rfl

/-- C7 (amended): a missing manifest is non-fatal — the load logs a
warning and yields zero core agents — and for every manifest whose entries
each either resolve or fail with an import/attribute error, the load
returns exactly the resolvable agents and logs one failure line per
unresolvable entry, each entry isolated from the others; a malformed
manifest, however, raises the JSON parse error to the caller. -/
theorem registry_load_isolates_entry_failures :
    (∀ (path : String) (resolve : String → LoadOutcome),
      load_agents path .missing resolve
        = (["⚠️ Warning: Manifest file " ++ path ++ " not found"], .ok []))
    ∧ (∀ (path : String) (names : List String) (resolve : String → LoadOutcome),
      (∀ n ∈ names, isFatalOutcome (resolve n) = false) →
      (load_agents path (.parsed (some names)) resolve).2
          = .ok (names.filterMap (fun n =>
              match resolve n with | .ok a => some (n, a) | _ => none))
      ∧ ((load_agents path (.parsed (some names)) resolve).1.filter
            isFailLog).length
          = names.countP (fun n => isResolutionFailure (resolve n))) :=
  ⟨fun _ _ => rfl, fun _ names resolve h => loadEntries_spec names resolve h⟩

/-- Witness for C7 (amended) at a two-entry manifest: `evaluator`
resolves and `ghost` fails its import, so the load yields exactly the one
usable agent and exactly one failure log line. -/
theorem registry_load_isolates_entry_failures_witness :
    (load_agents "agent_manifest.json" (.parsed (some ["evaluator", "ghost"]))
        demoResolve).2 = .ok [("evaluator", echoAgent)]
    ∧ ((load_agents "agent_manifest.json"
        (.parsed (some ["evaluator", "ghost"])) demoResolve).1.filter
          isFailLog).length = 1 :=
  ⟨((registry_load_isolates_entry_failures.2 "agent_manifest.json"
      ["evaluator", "ghost"] demoResolve (by decide)).1).trans rfl,
   ((registry_load_isolates_entry_failures.2 "agent_manifest.json"
      ["evaluator", "ghost"] demoResolve (by decide)).2).trans rfl⟩

/-- C9: when an agent name is bound both by the manifest load and by the
plugin discovery, the merged registry map binds the plugin-provided
handler — `agents.update(plugin_agents)` silently replaces the manifest
entry and the merge reports success, raising no conflict error. -/
theorem plugin_entry_overrides_manifest_entry (path : String)
    (source : ManifestSource) (resolve : String → LoadOutcome)
    (dirExists : Bool) (discovered : List (String × Except PyErr Agent))
    (core : List (String × Agent)) (name : String) (h : Agent)
    (hcore : (load_agents path source resolve).2 = .ok core)
    (hplug : dlookup (load_plugins dirExists discovered) name = some h) :
    (load_all_agents path source resolve dirExists discovered).2
        = .ok (dictUpdate core (load_plugins dirExists discovered))
    ∧ dlookup (dictUpdate core (load_plugins dirExists discovered)) name
        = some h := by
  have hnd : (dkeys (load_plugins dirExists discovered)).Nodup := by
    by_cases hd : dirExists
    · simp only [load_plugins, hd, Bool.not_true, Bool.false_eq_true, if_false]
      exact nodup_dkeys_pluginEntries discovered
    · simp only [load_plugins, hd, Bool.not_false, if_true]
      simp [dkeys]
  constructor
  · simp only [load_all_agents, hcore]
  · rw [dlookup_dictUpdate, dlookup_reverse_of_nodup _ hnd, hplug]

/-- Witness for C9 at a one-agent manifest and a plugin of the same name:
the merged map binds `evaluator` to the plugin's handler. -/
theorem plugin_entry_overrides_manifest_entry_witness :
    (load_all_agents "agent_manifest.json" (.parsed (some ["evaluator"]))
        (fun _ => .ok echoAgent) true [("evaluator", .ok pluginEchoAgent)]).2
      = .ok [("evaluator", pluginEchoAgent)]
    ∧ dlookup (dictUpdate [("evaluator", echoAgent)]
        (load_plugins true [("evaluator", .ok pluginEchoAgent)])) "evaluator"
      = some pluginEchoAgent :=
  ⟨((plugin_entry_overrides_manifest_entry "agent_manifest.json"
      (.parsed (some ["evaluator"])) (fun _ => .ok echoAgent) true
      [("evaluator", .ok pluginEchoAgent)] [("evaluator", echoAgent)]
      "evaluator" pluginEchoAgent rfl rfl).1).trans rfl,
   (plugin_entry_overrides_manifest_entry "agent_manifest.json"
      (.parsed (some ["evaluator"])) (fun _ => .ok echoAgent) true
      [("evaluator", .ok pluginEchoAgent)] [("evaluator", echoAgent)]
      "evaluator" pluginEchoAgent rfl rfl).2⟩

/-- C10 counterexample: a caller-supplied empty-string agent preference is
falsy in Python, so `handle_prompt` does not dispatch it — with the
orchestrator enabled and a registered recommendation `vp_design`, the
recommendation is applied even though a preference was supplied. -/
theorem handle_prompt_empty_preference_counterexample :
    handle_prompt_final_agent (some "") true "vp_design"
        ["evaluator", "vp_design"] = "vp_design"
    ∧ ("vp_design" : String) ≠ "" :=
  ⟨rfl, by decide⟩

/-- C10 (amended): a non-empty caller-supplied agent preference is always
the dispatched agent and the recommendation is never applied; when the
preference is absent (or empty, which Python treats as absent), the
recommended agent is dispatched exactly when orchestration is enabled and
it names a registered agent, and otherwise the fixed default `evaluator`
is dispatched. -/
theorem handle_prompt_preference_and_recommendation (pref : Option String)
    (usePO : Bool) (recommended : String) (agent_map : List String) :
    (∀ p, pref = some p → p ≠ "" →
      handle_prompt_final_agent pref usePO recommended agent_map = p)
    ∧ (pyTruthyOpt pref = false →
      handle_prompt_final_agent pref usePO recommended agent_map
        = if usePO && agent_map.contains recommended then recommended
          else "evaluator") := by
  constructor
  · intro p hp hne
    subst hp
    have hb : (p == "") = false := by simp [beq_iff_eq, hne]
    simp [handle_prompt_final_agent, pyTruthyOpt, hb]
  · intro hfalsy
    cases pref with
    | none =>
      simp [handle_prompt_final_agent, pyTruthyOpt]
    | some s =>
      have hb : (s == "") = true := by
        cases hsb : s == "" with
        | true => rfl
        | false => exact absurd hfalsy (by simp [pyTruthyOpt, hsb])
      simp [handle_prompt_final_agent, pyTruthyOpt, hb]

/-- Witness for C10 (amended): a non-empty preference `"vp_design"` is
dispatched even though `"evaluator"` is recommended and registered, and
with no preference the registered recommendation `"vp_design"` is
dispatched. -/
theorem handle_prompt_preference_and_recommendation_witness :
    handle_prompt_final_agent (some "vp_design") true "evaluator" ["evaluator"]
        = "vp_design"
    ∧ handle_prompt_final_agent none true "vp_design"
        ["evaluator", "vp_design"] = "vp_design" :=
  ⟨(handle_prompt_preference_and_recommendation (some "vp_design") true
      "evaluator" ["evaluator"]).1 "vp_design" rfl (by decide),
   ((handle_prompt_preference_and_recommendation none true "vp_design"
      ["evaluator", "vp_design"]).2 rfl).trans rfl⟩

end Fusion
